import Mathlib

/-!
Shallow embedding of `src/thing/get.ts` of solid-client-js: the read-only typed
accessor layer over an in-memory collection of RDF statements (a `Thing`).

The module under `src/` imports `asNamedNode`, `isNamedNode`, `isLiteral`, the
`deserialize*` functions and the `xmlSchemaTypes` datatype-IRI constants from
`../datatypes`, whose source is not part of this repository snapshot; those
definitions are modelled from the specification (§4.1, §4.5, §6) and are marked
as such in their doc comments.  Everything else is translated directly from
`get.ts`.
-/

namespace SolidGet

/-- An RDF/JS `NamedNode`: a term carrying a single IRI string. -/
structure NamedNode where
  value : String
deriving DecidableEq, Repr

/-- An RDF/JS `Literal`: a lexical string value, a datatype IRI, and a language
tag (the empty string when the literal is not language-tagged, as in RDF/JS). -/
structure Literal where
  value : String
  datatype : NamedNode
  language : String
deriving DecidableEq, Repr

/-- An RDF/JS object term: an IRI-reference, a literal, or another node kind
(blank node etc.) that no accessor in this core matches. -/
inductive Term where
  | namedNode (n : NamedNode)
  | literal (l : Literal)
  | blankNode (id : String)
deriving DecidableEq, Repr

/-- The `.value` field, present on every RDF/JS term. -/
def Term.value : Term → String
  | .namedNode n => n.value
  | .literal l => l.value
  | .blankNode id => id

/-- `isNamedNode` from `datatypes.ts`: the RDF/JS `termType === "NamedNode"`
check. -/
def isNamedNode : Term → Bool
  | .namedNode _ => true
  | _ => false

/-- `isLiteral` from `datatypes.ts`: the RDF/JS `termType === "Literal"`
check. -/
def isLiteral : Term → Bool
  | .literal _ => true
  | _ => false

/-- `object.datatype.value` as read by the matchers.  In JS a non-literal term
has no `datatype` field; the matchers only evaluate this access behind an
`isLiteral` guard, so the default `""` below is never reached by them (the
checked semantics further down makes the guard obligation explicit). -/
def Term.datatypeValue : Term → String
  | .literal l => l.datatype.value
  | _ => ""

/-- `object.language` as read by the locale matcher, with the same guard
convention as `Term.datatypeValue`. -/
def Term.languageValue : Term → String
  | .literal l => l.language
  | _ => ""

/-- An RDF/JS `Quad` (statement); only `predicate` and `object` are consulted
by this core. -/
structure Quad where
  subject : Term
  predicate : NamedNode
  object : Term
  graph : Term
deriving DecidableEq, Repr

/-- A `Thing`: an ordered collection of statements, iterated in order. -/
abbrev Thing := List Quad

/-- The `Iri | IriString` union: a predicate argument is either an IRI node or
a raw IRI string. -/
inductive IriArg where
  | iri (n : NamedNode)
  | iriString (s : String)
deriving DecidableEq, Repr

/-- Modelled from the spec: `asNamedNode` from `datatypes.ts` is not under
`src/`.  §4.1: the canonicalizer accepts a predicate as raw string or
IRI-reference value and returns a canonical IRI-reference; idempotent, no error
path. -/
def asNamedNode : IriArg → NamedNode
  | .iri n => n
  | .iriString s => ⟨s⟩

/-- RDF/JS `NamedNode.equals` restricted to named nodes: equality of the IRI
strings. -/
def NamedNode.equalsB (a b : NamedNode) : Bool :=
  a.value == b.value

/-- Modelled from the spec: the `xmlSchemaTypes` datatype-IRI constants from
`datatypes.ts` are not under `src/`.  §6: a fixed mapping from logical type
name (`boolean`, `dateTime`, `decimal`, `integer`, `string`, `langString`) to
its canonical datatype IRI, used for exact-match comparison. -/
structure XmlSchemaTypes where
  boolean : String
  dateTime : String
  decimal : String
  integer : String
  string : String
  langString : String

/-- The canonical datatype IRIs (XSD for the scalar types, the RDF namespace
for language-tagged strings). -/
def xmlSchemaTypes : XmlSchemaTypes where
  boolean := "http://www.w3.org/2001/XMLSchema#boolean"
  dateTime := "http://www.w3.org/2001/XMLSchema#dateTime"
  decimal := "http://www.w3.org/2001/XMLSchema#decimal"
  integer := "http://www.w3.org/2001/XMLSchema#integer"
  string := "http://www.w3.org/2001/XMLSchema#string"
  langString := "http://www.w3.org/1999/02/22-rdf-syntax-ns#langString"

/-- Modelled from the spec: `deserializeBoolean` from `datatypes.ts` is not
under `src/`.  §4.5: `"true"`/`"1"` map to true, `"false"`/`"0"` map to false,
any other lexical form is not-found; total and non-throwing. -/
def deserializeBoolean (value : String) : Option Bool :=
  if value == "true" || value == "1" then some true
  else if value == "false" || value == "0" then some false
  else none

/-- Interprets a nonempty list of decimal digit characters, not-found
otherwise; helper for the modelled numeric and datetime deserializers. -/
def parseDigits (cs : List Char) : Option Nat :=
  if cs.isEmpty then none
  else if cs.all Char.isDigit then
    some (cs.foldl (fun acc c => acc * 10 + (c.toNat - 48)) 0)
  else none

/-- Modelled from the spec: `deserializeInteger` from `datatypes.ts` is not
under `src/`.  §4.5: numeric lexical parse rejecting fractional lexical forms;
non-numeric or out-of-grammar input is not-found; total and non-throwing. -/
def deserializeInteger (value : String) : Option Int :=
  match value.toList with
  | '-' :: rest => (parseDigits rest).map (fun n => -(n : Int))
  | '+' :: rest => (parseDigits rest).map (fun n => (n : Int))
  | cs => (parseDigits cs).map (fun n => (n : Int))

/-- The value of a decimal lexical form, as the exact pair of a signed
mantissa and a fractional scale: the represented number is
`mantissa / 10 ^ scale`. -/
structure DecimalValue where
  mantissa : Int
  scale : Nat
deriving DecidableEq, Repr

/-- Digits of the unsigned part of a decimal lexical form: an integer part and
an optional fractional part separated by a single dot. -/
def parseUnsignedDecimal (cs : List Char) : Option DecimalValue :=
  match cs.splitOn '.' with
  | [intPart] => (parseDigits intPart).map (fun n => ⟨(n : Int), 0⟩)
  | [intPart, fracPart] =>
    match parseDigits intPart, parseDigits fracPart with
    | some i, some f => some ⟨((i * 10 ^ fracPart.length + f : Nat) : Int), fracPart.length⟩
    | _, _ => none
  | _ => none

/-- Modelled from the spec: `deserializeDecimal` from `datatypes.ts` is not
under `src/`.  §4.5: numeric lexical parse (optional sign, integer digits,
optional fractional digits); non-numeric input is not-found; total and
non-throwing. -/
def deserializeDecimal (value : String) : Option DecimalValue :=
  match value.toList with
  | '-' :: rest => (parseUnsignedDecimal rest).map (fun d => ⟨-d.mantissa, d.scale⟩)
  | '+' :: rest => parseUnsignedDecimal rest
  | cs => parseUnsignedDecimal cs

/-- The value of a parsed ISO-8601 datetime lexical form: calendar fields plus
an optional UTC offset in minutes (none for a naive instant). -/
structure DatetimeValue where
  year : Nat
  month : Nat
  day : Nat
  hour : Nat
  minute : Nat
  second : Nat
  offsetMinutes : Option Int
deriving DecidableEq, Repr

/-- Consumes exactly `k` digit characters from the front of `cs`. -/
def parseFixedDigits (k : Nat) (cs : List Char) : Option (Nat × List Char) :=
  let taken := cs.take k
  if taken.length == k && taken.all Char.isDigit then
    (parseDigits taken).map (fun n => (n, cs.drop k))
  else none

/-- Parses the optional ISO-8601 offset suffix: empty (naive), `Z`, or
`±HH:MM`. -/
def parseOffset (cs : List Char) : Option (Option Int) :=
  match cs with
  | [] => some none
  | ['Z'] => some (some 0)
  | sign :: rest =>
    if sign = '+' || sign = '-' then
      match parseFixedDigits 2 rest with
      | some (h, ':' :: rest2) =>
        match parseFixedDigits 2 rest2 with
        | some (m, []) =>
          let mins : Int := (h : Int) * 60 + (m : Int)
          some (some (if sign = '-' then -mins else mins))
        | _ => none
      | _ => none
    else none

/-- Parses the optional ISO-8601 time-and-offset suffix `THH:MM:SS…`. -/
def parseTimePart (cs : List Char) : Option (Nat × Nat × Nat × Option Int) :=
  match cs with
  | [] => some (0, 0, 0, none)
  | 'T' :: rest =>
    match parseFixedDigits 2 rest with
    | some (h, ':' :: rest2) =>
      match parseFixedDigits 2 rest2 with
      | some (m, ':' :: rest3) =>
        match parseFixedDigits 2 rest3 with
        | some (s, rest4) => (parseOffset rest4).map (fun off => (h, m, s, off))
        | none => none
      | _ => none
    | _ => none
  | _ => none

/-- Modelled from the spec: `deserializeDatetime` from `datatypes.ts` is not
under `src/`.  §4.5: ISO-8601 extended lexical form (date `YYYY-MM-DD`,
optional time, optional offset) parsed to an absolute or naive instant;
unparsable input is not-found; total and non-throwing. -/
def deserializeDatetime (value : String) : Option DatetimeValue :=
  match parseFixedDigits 4 value.toList with
  | some (y, '-' :: rest) =>
    match parseFixedDigits 2 rest with
    | some (mo, '-' :: rest2) =>
      match parseFixedDigits 2 rest2 with
      | some (d, rest3) =>
        (parseTimePart rest3).map (fun t => ⟨y, mo, d, t.1, t.2.1, t.2.2.1, t.2.2.2⟩)
      | none => none
    | _ => none
  | _ => none

/-- `findOne` from `get.ts`: scans the statements in iteration order and
returns the first one the matcher accepts, or the not-found sentinel. -/
def findOne (thing : Thing) (matcher : Quad → Bool) : Option Quad :=
  match thing with
  | [] => none
  | quad :: rest => if matcher quad then some quad else findOne rest matcher

/-- `findAll` from `get.ts`: scans all statements and collects every one the
matcher accepts, in original order, without deduplication. -/
def findAll (thing : Thing) (matcher : Quad → Bool) : List Quad :=
  match thing with
  | [] => []
  | quad :: rest =>
    if matcher quad then quad :: findAll rest matcher else findAll rest matcher

/-- `getNamedNodeMatcher` from `get.ts`: predicate equals target and object is
an IRI-reference. -/
def getNamedNodeMatcher (predicate : IriArg) : Quad → Bool :=
  let predicateNode := asNamedNode predicate
  fun quad => predicateNode.equalsB quad.predicate && isNamedNode quad.object

/-- `getLiteralMatcher` from `get.ts`: predicate equals target and object is a
literal of any datatype. -/
def getLiteralMatcher (predicate : IriArg) : Quad → Bool :=
  let predicateNode := asNamedNode predicate
  fun quad => predicateNode.equalsB quad.predicate && isLiteral quad.object

/-- `getLiteralOfTypeMatcher` from `get.ts`: predicate equals target, object is
a literal, and its datatype IRI equals the supplied datatype exactly. -/
def getLiteralOfTypeMatcher (predicate : IriArg) (datatype : String) : Quad → Bool :=
  let predicateNode := asNamedNode predicate
  fun quad =>
    predicateNode.equalsB quad.predicate &&
    isLiteral quad.object &&
    quad.object.datatypeValue == datatype

/-- Case-folds one character: the effect of JS `toLowerCase` on the ASCII
range, which covers BCP-47 language tags (pure ASCII). -/
def charToLowerCase (c : Char) : Char :=
  if 65 ≤ c.toNat ∧ c.toNat ≤ 90 then Char.ofNat (c.toNat + 32) else c

/-- JS `String.prototype.toLowerCase` as used on language tags and locale
arguments: character-wise case-folding. -/
def toLowerCase (s : String) : String :=
  String.mk (s.data.map charToLowerCase)

/-- `getLocaleStringMatcher` from `get.ts`: predicate equals target, object is
a literal of the language-tagged-string datatype, and its language tag equals
the supplied locale case-insensitively (both sides lower-cased). -/
def getLocaleStringMatcher (predicate : IriArg) (locale : String) : Quad → Bool :=
  let predicateNode := asNamedNode predicate
  fun quad =>
    predicateNode.equalsB quad.predicate &&
    isLiteral quad.object &&
    quad.object.datatypeValue == xmlSchemaTypes.langString &&
    toLowerCase quad.object.languageValue == toLowerCase locale

/-- `getLiteralOneOfType` from `get.ts`: the lexical value of the first
statement matching on predicate and datatype, if any. -/
def getLiteralOneOfType (thing : Thing) (predicate : IriArg) (literalType : String) :
    Option String :=
  match findOne thing (getLiteralOfTypeMatcher predicate literalType) with
  | none => none
  | some matchingQuad => some matchingQuad.object.value

/-- `getLiteralAllOfType` from `get.ts`: the lexical values of every statement
matching on predicate and datatype, in order. -/
def getLiteralAllOfType (thing : Thing) (predicate : IriArg) (literalType : String) :
    List String :=
  (findAll thing (getLiteralOfTypeMatcher predicate literalType)).map
    (fun quad => quad.object.value)

/-- `getIriOne` from `get.ts`. -/
def getIriOne (thing : Thing) (predicate : IriArg) : Option String :=
  match findOne thing (getNamedNodeMatcher predicate) with
  | none => none
  | some matchingQuad => some matchingQuad.object.value

/-- `getIriAll` from `get.ts`. -/
def getIriAll (thing : Thing) (predicate : IriArg) : List String :=
  (findAll thing (getNamedNodeMatcher predicate)).map (fun quad => quad.object.value)

/-- `getBooleanOne` from `get.ts`. -/
def getBooleanOne (thing : Thing) (predicate : IriArg) : Option Bool :=
  match getLiteralOneOfType thing predicate xmlSchemaTypes.boolean with
  | none => none
  | some literalString => deserializeBoolean literalString

/-- `getBooleanAll` from `get.ts`: deserializes every match and drops the
entries that fail (`.filter(x => x !== null)` on the mapped list). -/
def getBooleanAll (thing : Thing) (predicate : IriArg) : List Bool :=
  ((getLiteralAllOfType thing predicate xmlSchemaTypes.boolean).map
    deserializeBoolean).reduceOption

/-- `getDatetimeOne` from `get.ts`. -/
def getDatetimeOne (thing : Thing) (predicate : IriArg) : Option DatetimeValue :=
  match getLiteralOneOfType thing predicate xmlSchemaTypes.dateTime with
  | none => none
  | some literalString => deserializeDatetime literalString

/-- `getDatetimeAll` from `get.ts`. -/
def getDatetimeAll (thing : Thing) (predicate : IriArg) : List DatetimeValue :=
  ((getLiteralAllOfType thing predicate xmlSchemaTypes.dateTime).map
    deserializeDatetime).reduceOption

/-- `getDecimalOne` from `get.ts`. -/
def getDecimalOne (thing : Thing) (predicate : IriArg) : Option DecimalValue :=
  match getLiteralOneOfType thing predicate xmlSchemaTypes.decimal with
  | none => none
  | some literalString => deserializeDecimal literalString

/-- `getDecimalAll` from `get.ts`. -/
def getDecimalAll (thing : Thing) (predicate : IriArg) : List DecimalValue :=
  ((getLiteralAllOfType thing predicate xmlSchemaTypes.decimal).map
    deserializeDecimal).reduceOption

/-- `getIntegerOne` from `get.ts`. -/
def getIntegerOne (thing : Thing) (predicate : IriArg) : Option Int :=
  match getLiteralOneOfType thing predicate xmlSchemaTypes.integer with
  | none => none
  | some literalString => deserializeInteger literalString

/-- `getIntegerAll` from `get.ts`. -/
def getIntegerAll (thing : Thing) (predicate : IriArg) : List Int :=
  ((getLiteralAllOfType thing predicate xmlSchemaTypes.integer).map
    deserializeInteger).reduceOption

/-- `getStringInLocaleOne` from `get.ts`. -/
def getStringInLocaleOne (thing : Thing) (predicate : IriArg) (locale : String) :
    Option String :=
  match findOne thing (getLocaleStringMatcher predicate locale) with
  | none => none
  | some matchingQuad => some matchingQuad.object.value

/-- `getStringInLocaleAll` from `get.ts`. -/
def getStringInLocaleAll (thing : Thing) (predicate : IriArg) (locale : String) :
    List String :=
  (findAll thing (getLocaleStringMatcher predicate locale)).map
    (fun quad => quad.object.value)

/-- `getStringUnlocalizedOne` from `get.ts`: the lexical value of the first
`xsd:string`-typed literal, no deserialization step. -/
def getStringUnlocalizedOne (thing : Thing) (predicate : IriArg) : Option String :=
  getLiteralOneOfType thing predicate xmlSchemaTypes.string

/-- `getStringUnlocalizedAll` from `get.ts`. -/
def getStringUnlocalizedAll (thing : Thing) (predicate : IriArg) : List String :=
  getLiteralAllOfType thing predicate xmlSchemaTypes.string

/-- `getNamedNodeOne` from `get.ts`: escape hatch returning the raw object
node. -/
def getNamedNodeOne (thing : Thing) (predicate : IriArg) : Option Term :=
  match findOne thing (getNamedNodeMatcher predicate) with
  | none => none
  | some matchingQuad => some matchingQuad.object

/-- `getNamedNodeAll` from `get.ts`. -/
def getNamedNodeAll (thing : Thing) (predicate : IriArg) : List Term :=
  (findAll thing (getNamedNodeMatcher predicate)).map (fun quad => quad.object)

/-- `getLiteralOne` from `get.ts`: escape hatch returning the raw literal
node. -/
def getLiteralOne (thing : Thing) (predicate : IriArg) : Option Term :=
  match findOne thing (getLiteralMatcher predicate) with
  | none => none
  | some matchingQuad => some matchingQuad.object

/-- `getLiteralAll` from `get.ts`. -/
def getLiteralAll (thing : Thing) (predicate : IriArg) : List Term :=
  (findAll thing (getLiteralMatcher predicate)).map (fun quad => quad.object)

/-!
Checked semantics: the JS matchers read `quad.object.datatype.value` and
`quad.object.language` behind short-circuit `&&` guards.  On a term where the
field is absent (a non-literal), the access would throw a `TypeError`.  The
definitions below make the possible throw explicit as `Except.error`, so that
totality of the accessor layer (no statement input can make it throw) becomes
a provable statement rather than a typing convention.
-/

/-- Unchecked JS read of `object.datatype.value`: throws on a term with no
`datatype` field. -/
def Term.datatypeValueChecked : Term → Except String String
  | .literal l => .ok l.datatype.value
  | _ => .error "TypeError: cannot read properties of undefined"

/-- Unchecked JS read of `object.language`: throws on a term with no
`language` field. -/
def Term.languageValueChecked : Term → Except String String
  | .literal l => .ok l.language
  | _ => .error "TypeError: cannot read properties of undefined"

/-- `getNamedNodeMatcher` under the checked semantics (it performs no guarded
field access, so it never throws by construction). -/
def getNamedNodeMatcherChecked (predicate : IriArg) (quad : Quad) : Except String Bool :=
  let predicateNode := asNamedNode predicate
  Except.ok (predicateNode.equalsB quad.predicate && isNamedNode quad.object)

/-- `getLiteralMatcher` under the checked semantics. -/
def getLiteralMatcherChecked (predicate : IriArg) (quad : Quad) : Except String Bool :=
  let predicateNode := asNamedNode predicate
  Except.ok (predicateNode.equalsB quad.predicate && isLiteral quad.object)

/-- `getLiteralOfTypeMatcher` under the checked semantics: the datatype field
is read only after the short-circuited `isLiteral` guard has passed. -/
def getLiteralOfTypeMatcherChecked (predicate : IriArg) (datatype : String)
    (quad : Quad) : Except String Bool :=
  let predicateNode := asNamedNode predicate
  if predicateNode.equalsB quad.predicate && isLiteral quad.object then do
    let dv ← quad.object.datatypeValueChecked
    Except.ok (dv == datatype)
  else Except.ok false

/-- `getLocaleStringMatcher` under the checked semantics: datatype and
language fields are read only behind their guards. -/
def getLocaleStringMatcherChecked (predicate : IriArg) (locale : String)
    (quad : Quad) : Except String Bool :=
  let predicateNode := asNamedNode predicate
  if predicateNode.equalsB quad.predicate && isLiteral quad.object then do
    let dv ← quad.object.datatypeValueChecked
    if dv == xmlSchemaTypes.langString then do
      let lang ← quad.object.languageValueChecked
      Except.ok (toLowerCase lang == toLowerCase locale)
    else Except.ok false
  else Except.ok false

/-- `findOne` when the matcher may throw: the scan propagates the throw. -/
def findOneChecked (thing : Thing) (matcher : Quad → Except String Bool) :
    Except String (Option Quad) :=
  match thing with
  | [] => .ok none
  | quad :: rest => do
    let b ← matcher quad
    if b then Except.ok (some quad) else findOneChecked rest matcher

/-- `findAll` when the matcher may throw. -/
def findAllChecked (thing : Thing) (matcher : Quad → Except String Bool) :
    Except String (List Quad) :=
  match thing with
  | [] => .ok []
  | quad :: rest => do
    let b ← matcher quad
    let tail ← findAllChecked rest matcher
    Except.ok (if b then quad :: tail else tail)

/-- `getLiteralOneOfType` under the checked semantics. -/
def getLiteralOneOfTypeChecked (thing : Thing) (predicate : IriArg)
    (literalType : String) : Except String (Option String) := do
  let matchingQuad ← findOneChecked thing (getLiteralOfTypeMatcherChecked predicate literalType)
  Except.ok (matchingQuad.map (fun quad => quad.object.value))

/-- `getLiteralAllOfType` under the checked semantics. -/
def getLiteralAllOfTypeChecked (thing : Thing) (predicate : IriArg)
    (literalType : String) : Except String (List String) := do
  let matchingQuads ← findAllChecked thing (getLiteralOfTypeMatcherChecked predicate literalType)
  Except.ok (matchingQuads.map (fun quad => quad.object.value))

/-- `getIriOne` under the checked semantics. -/
def getIriOneChecked (thing : Thing) (predicate : IriArg) :
    Except String (Option String) := do
  let matchingQuad ← findOneChecked thing (getNamedNodeMatcherChecked predicate)
  Except.ok (matchingQuad.map (fun quad => quad.object.value))

/-- `getIriAll` under the checked semantics. -/
def getIriAllChecked (thing : Thing) (predicate : IriArg) :
    Except String (List String) := do
  let matchingQuads ← findAllChecked thing (getNamedNodeMatcherChecked predicate)
  Except.ok (matchingQuads.map (fun quad => quad.object.value))

/-- `getBooleanOne` under the checked semantics (the deserializer itself is
total and non-throwing per §4.5). -/
def getBooleanOneChecked (thing : Thing) (predicate : IriArg) :
    Except String (Option Bool) := do
  let literalString ← getLiteralOneOfTypeChecked thing predicate xmlSchemaTypes.boolean
  Except.ok (match literalString with
        | none => none
        | some s => deserializeBoolean s)

/-- `getBooleanAll` under the checked semantics. -/
def getBooleanAllChecked (thing : Thing) (predicate : IriArg) :
    Except String (List Bool) := do
  let literalStrings ← getLiteralAllOfTypeChecked thing predicate xmlSchemaTypes.boolean
  Except.ok ((literalStrings.map deserializeBoolean).reduceOption)

/-- `getDatetimeOne` under the checked semantics. -/
def getDatetimeOneChecked (thing : Thing) (predicate : IriArg) :
    Except String (Option DatetimeValue) := do
  let literalString ← getLiteralOneOfTypeChecked thing predicate xmlSchemaTypes.dateTime
  Except.ok (match literalString with
        | none => none
        | some s => deserializeDatetime s)

/-- `getDatetimeAll` under the checked semantics. -/
def getDatetimeAllChecked (thing : Thing) (predicate : IriArg) :
    Except String (List DatetimeValue) := do
  let literalStrings ← getLiteralAllOfTypeChecked thing predicate xmlSchemaTypes.dateTime
  Except.ok ((literalStrings.map deserializeDatetime).reduceOption)

/-- `getDecimalOne` under the checked semantics. -/
def getDecimalOneChecked (thing : Thing) (predicate : IriArg) :
    Except String (Option DecimalValue) := do
  let literalString ← getLiteralOneOfTypeChecked thing predicate xmlSchemaTypes.decimal
  Except.ok (match literalString with
        | none => none
        | some s => deserializeDecimal s)

/-- `getDecimalAll` under the checked semantics. -/
def getDecimalAllChecked (thing : Thing) (predicate : IriArg) :
    Except String (List DecimalValue) := do
  let literalStrings ← getLiteralAllOfTypeChecked thing predicate xmlSchemaTypes.decimal
  Except.ok ((literalStrings.map deserializeDecimal).reduceOption)

/-- `getIntegerOne` under the checked semantics. -/
def getIntegerOneChecked (thing : Thing) (predicate : IriArg) :
    Except String (Option Int) := do
  let literalString ← getLiteralOneOfTypeChecked thing predicate xmlSchemaTypes.integer
  Except.ok (match literalString with
        | none => none
        | some s => deserializeInteger s)

/-- `getIntegerAll` under the checked semantics. -/
def getIntegerAllChecked (thing : Thing) (predicate : IriArg) :
    Except String (List Int) := do
  let literalStrings ← getLiteralAllOfTypeChecked thing predicate xmlSchemaTypes.integer
  Except.ok ((literalStrings.map deserializeInteger).reduceOption)

/-- `getStringInLocaleOne` under the checked semantics. -/
def getStringInLocaleOneChecked (thing : Thing) (predicate : IriArg) (locale : String) :
    Except String (Option String) := do
  let matchingQuad ← findOneChecked thing (getLocaleStringMatcherChecked predicate locale)
  Except.ok (matchingQuad.map (fun quad => quad.object.value))

/-- `getStringInLocaleAll` under the checked semantics. -/
def getStringInLocaleAllChecked (thing : Thing) (predicate : IriArg) (locale : String) :
    Except String (List String) := do
  let matchingQuads ← findAllChecked thing (getLocaleStringMatcherChecked predicate locale)
  Except.ok (matchingQuads.map (fun quad => quad.object.value))

/-- `getStringUnlocalizedOne` under the checked semantics. -/
def getStringUnlocalizedOneChecked (thing : Thing) (predicate : IriArg) :
    Except String (Option String) :=
  getLiteralOneOfTypeChecked thing predicate xmlSchemaTypes.string

/-- `getStringUnlocalizedAll` under the checked semantics. -/
def getStringUnlocalizedAllChecked (thing : Thing) (predicate : IriArg) :
    Except String (List String) :=
  getLiteralAllOfTypeChecked thing predicate xmlSchemaTypes.string

/-- `getNamedNodeOne` under the checked semantics. -/
def getNamedNodeOneChecked (thing : Thing) (predicate : IriArg) :
    Except String (Option Term) := do
  let matchingQuad ← findOneChecked thing (getNamedNodeMatcherChecked predicate)
  Except.ok (matchingQuad.map (fun quad => quad.object))

/-- `getNamedNodeAll` under the checked semantics. -/
def getNamedNodeAllChecked (thing : Thing) (predicate : IriArg) :
    Except String (List Term) := do
  let matchingQuads ← findAllChecked thing (getNamedNodeMatcherChecked predicate)
  Except.ok (matchingQuads.map (fun quad => quad.object))

/-- `getLiteralOne` under the checked semantics. -/
def getLiteralOneChecked (thing : Thing) (predicate : IriArg) :
    Except String (Option Term) := do
  let matchingQuad ← findOneChecked thing (getLiteralMatcherChecked predicate)
  Except.ok (matchingQuad.map (fun quad => quad.object))

/-- `getLiteralAll` under the checked semantics. -/
def getLiteralAllChecked (thing : Thing) (predicate : IriArg) :
    Except String (List Term) := do
  let matchingQuads ← findAllChecked thing (getLiteralMatcherChecked predicate)
  Except.ok (matchingQuads.map (fun quad => quad.object))

/-!
Concrete inputs used by counterexamples and witnesses.
-/

/-- A sample predicate IRI. -/
def examplePredicateIri : String := "https://example.com/pred"

/-- The sample predicate as a raw-string argument. -/
def exampleArg : IriArg := .iriString examplePredicateIri

/-- A sample subject node shared by the concrete statements. -/
def exampleSubject : Term := .namedNode ⟨"https://example.com/subject"⟩

/-- The default graph node of the concrete statements. -/
def exampleGraph : Term := .namedNode ⟨""⟩

/-- Builds a statement with the sample subject, predicate and graph around a
given object term. -/
def exampleQuad (o : Term) : Quad :=
  ⟨exampleSubject, ⟨examplePredicateIri⟩, o, exampleGraph⟩

/-- A boolean-datatyped literal term with the given lexical form. -/
def booleanLiteral (s : String) : Term :=
  .literal ⟨s, ⟨xmlSchemaTypes.boolean⟩, ""⟩

/-- Two boolean-typed literals under the sample predicate, the malformed
lexical form first. -/
def exampleThingMaybeTrue : Thing :=
  [exampleQuad (booleanLiteral "maybe"), exampleQuad (booleanLiteral "true")]

/-- Two boolean-typed literals under the sample predicate, the valid lexical
form first. -/
def exampleThingTrueMaybe : Thing :=
  [exampleQuad (booleanLiteral "true"), exampleQuad (booleanLiteral "maybe")]

/-- One language-tagged literal with upper-case tag `EN` under the sample
predicate. -/
def exampleLocaleThing : Thing :=
  [exampleQuad (.literal ⟨"Hallo", ⟨xmlSchemaTypes.langString⟩, "EN"⟩)]

/-- One `xsd:string`-typed literal under the sample predicate. -/
def exampleStringThing : Thing :=
  [exampleQuad (.literal ⟨"plain", ⟨xmlSchemaTypes.string⟩, ""⟩)]

/-- One IRI-valued statement under the sample predicate. -/
def exampleIriThing : Thing :=
  [exampleQuad (.namedNode ⟨"https://example.com/object"⟩)]

/-- A decimal-typed literal with lexical form `3` under the sample
predicate. -/
def exampleDecimalThreeQuad : Quad :=
  exampleQuad (.literal ⟨"3", ⟨xmlSchemaTypes.decimal⟩, ""⟩)

/-- An integer-typed literal with lexical form `3` under the sample
predicate. -/
def exampleIntegerThreeQuad : Quad :=
  exampleQuad (.literal ⟨"3", ⟨xmlSchemaTypes.integer⟩, ""⟩)

/-- A language-tagged literal statement under the sample predicate. -/
def exampleLangStringQuad : Quad :=
  exampleQuad (.literal ⟨"Hallo", ⟨xmlSchemaTypes.langString⟩, "en"⟩)

/-- An `xsd:string`-typed literal statement under the sample predicate. -/
def exampleXsdStringQuad : Quad :=
  exampleQuad (.literal ⟨"plain", ⟨xmlSchemaTypes.string⟩, ""⟩)

/-- One datetime-typed literal with lexical form `2020-01-01` under the sample
predicate. -/
def exampleDatetimeThing : Thing :=
  [exampleQuad (.literal ⟨"2020-01-01", ⟨xmlSchemaTypes.dateTime⟩, ""⟩)]

/-- One decimal-typed literal with lexical form `3.5` under the sample
predicate. -/
def exampleDecimalThing : Thing :=
  [exampleQuad (.literal ⟨"3.5", ⟨xmlSchemaTypes.decimal⟩, ""⟩)]

/-- One integer-typed literal with lexical form `3` under the sample
predicate. -/
def exampleIntegerThing : Thing :=
  [exampleIntegerThreeQuad]

/-!
Lemmas about the scanner and the accessors, followed by one theorem per
specification claim (with witnesses or counterexamples at concrete inputs).
-/

theorem findAll_eq_filter (m : Quad → Bool) (thing : Thing) :
    findAll thing m = thing.filter m := by
  induction thing with
  | nil => rfl
  | cons q rest ih => simp [findAll, List.filter_cons, ih]

theorem findOne_eq_head (m : Quad → Bool) (thing : Thing) :
    findOne thing m = (findAll thing m).head? := by
  induction thing with
  | nil => rfl
  | cons q rest ih =>
    simp only [findOne, findAll]
    split
    · rfl
    · simpa using ih

theorem reduceOption_map_eq_filterMap (f : α → Option β) (l : List α) :
    (l.map f).reduceOption = l.filterMap f := by
  induction l with
  | nil => rfl
  | cons a l ih =>
    cases h : f a <;>
      simp_all [List.reduceOption, List.filterMap_cons, h]

theorem findAll_append (m : Quad → Bool) (t1 t2 : Thing) :
    findAll (t1 ++ t2) m = findAll t1 m ++ findAll t2 m := by
  induction t1 with
  | nil => rfl
  | cons q rest ih =>
    simp only [List.cons_append, findAll, ih]
    split <;> simp [ih]

theorem findOne_append (m : Quad → Bool) (t1 t2 : Thing) :
    findOne (t1 ++ t2) m = (findOne t1 m).or (findOne t2 m) := by
  induction t1 with
  | nil => rfl
  | cons q rest ih =>
    simp only [List.cons_append, findOne, ih]
    split <;> simp [ih]

theorem findOne_none_iff (m : Quad → Bool) (thing : Thing) :
    findOne thing m = none ↔ findAll thing m = [] := by
  rw [findOne_eq_head]
  cases findAll thing m <;> simp

theorem findOne_insert_nonmatching (m : Quad → Bool) (q : Quad) (hm : m q = false)
    (t1 t2 : Thing) : findOne (t1 ++ q :: t2) m = findOne (t1 ++ t2) m := by
  simp [findOne_append, findOne, hm]

theorem findAll_insert_nonmatching (m : Quad → Bool) (q : Quad) (hm : m q = false)
    (t1 t2 : Thing) : findAll (t1 ++ q :: t2) m = findAll (t1 ++ t2) m := by
  simp [findAll_append, findAll, hm]

theorem getIriOne_eq_map (thing : Thing) (predicate : IriArg) :
    getIriOne thing predicate =
      (findOne thing (getNamedNodeMatcher predicate)).map (fun quad => quad.object.value) := by
  cases h : findOne thing (getNamedNodeMatcher predicate) <;> simp [getIriOne, h]

theorem getLiteralOneOfType_eq_map (thing : Thing) (predicate : IriArg) (dt : String) :
    getLiteralOneOfType thing predicate dt =
      (findOne thing (getLiteralOfTypeMatcher predicate dt)).map (fun quad => quad.object.value) := by
  cases h : findOne thing (getLiteralOfTypeMatcher predicate dt) <;> simp [getLiteralOneOfType, h]

theorem getBooleanOne_eq_bind (thing : Thing) (predicate : IriArg) :
    getBooleanOne thing predicate =
      (findOne thing (getLiteralOfTypeMatcher predicate xmlSchemaTypes.boolean)).bind
        (fun quad => deserializeBoolean quad.object.value) := by
  cases h : findOne thing (getLiteralOfTypeMatcher predicate xmlSchemaTypes.boolean) <;>
    simp [getBooleanOne, getLiteralOneOfType, h]

theorem getBooleanAll_eq_filterMap (thing : Thing) (predicate : IriArg) :
    getBooleanAll thing predicate =
      (findAll thing (getLiteralOfTypeMatcher predicate xmlSchemaTypes.boolean)).filterMap
        (fun quad => deserializeBoolean quad.object.value) := by
  simp [getBooleanAll, getLiteralAllOfType, List.map_map, reduceOption_map_eq_filterMap]
  rfl

theorem getStringInLocaleOne_eq_map (thing : Thing) (predicate : IriArg) (locale : String) :
    getStringInLocaleOne thing predicate locale =
      (findOne thing (getLocaleStringMatcher predicate locale)).map
        (fun quad => quad.object.value) := by
  cases h : findOne thing (getLocaleStringMatcher predicate locale) <;>
    simp [getStringInLocaleOne, h]

theorem getNamedNodeOne_eq_map (thing : Thing) (predicate : IriArg) :
    getNamedNodeOne thing predicate =
      (findOne thing (getNamedNodeMatcher predicate)).map (fun quad => quad.object) := by
  cases h : findOne thing (getNamedNodeMatcher predicate) <;> simp [getNamedNodeOne, h]

theorem getLiteralOne_eq_map (thing : Thing) (predicate : IriArg) :
    getLiteralOne thing predicate =
      (findOne thing (getLiteralMatcher predicate)).map (fun quad => quad.object) := by
  cases h : findOne thing (getLiteralMatcher predicate) <;> simp [getLiteralOne, h]

theorem getDatetimeOne_eq_bind (thing : Thing) (predicate : IriArg) :
    getDatetimeOne thing predicate =
      (findOne thing (getLiteralOfTypeMatcher predicate xmlSchemaTypes.dateTime)).bind
        (fun quad => deserializeDatetime quad.object.value) := by
  cases h : findOne thing (getLiteralOfTypeMatcher predicate xmlSchemaTypes.dateTime) <;>
    simp [getDatetimeOne, getLiteralOneOfType, h]

theorem getDecimalOne_eq_bind (thing : Thing) (predicate : IriArg) :
    getDecimalOne thing predicate =
      (findOne thing (getLiteralOfTypeMatcher predicate xmlSchemaTypes.decimal)).bind
        (fun quad => deserializeDecimal quad.object.value) := by
  cases h : findOne thing (getLiteralOfTypeMatcher predicate xmlSchemaTypes.decimal) <;>
    simp [getDecimalOne, getLiteralOneOfType, h]

theorem getIntegerOne_eq_bind (thing : Thing) (predicate : IriArg) :
    getIntegerOne thing predicate =
      (findOne thing (getLiteralOfTypeMatcher predicate xmlSchemaTypes.integer)).bind
        (fun quad => deserializeInteger quad.object.value) := by
  cases h : findOne thing (getLiteralOfTypeMatcher predicate xmlSchemaTypes.integer) <;>
    simp [getIntegerOne, getLiteralOneOfType, h]

theorem getDatetimeAll_eq_filterMap (thing : Thing) (predicate : IriArg) :
    getDatetimeAll thing predicate =
      (findAll thing (getLiteralOfTypeMatcher predicate xmlSchemaTypes.dateTime)).filterMap
        (fun quad => deserializeDatetime quad.object.value) := by
  simp [getDatetimeAll, getLiteralAllOfType, List.map_map, reduceOption_map_eq_filterMap]
  rfl

theorem getDecimalAll_eq_filterMap (thing : Thing) (predicate : IriArg) :
    getDecimalAll thing predicate =
      (findAll thing (getLiteralOfTypeMatcher predicate xmlSchemaTypes.decimal)).filterMap
        (fun quad => deserializeDecimal quad.object.value) := by
  simp [getDecimalAll, getLiteralAllOfType, List.map_map, reduceOption_map_eq_filterMap]
  rfl

theorem getIntegerAll_eq_filterMap (thing : Thing) (predicate : IriArg) :
    getIntegerAll thing predicate =
      (findAll thing (getLiteralOfTypeMatcher predicate xmlSchemaTypes.integer)).filterMap
        (fun quad => deserializeInteger quad.object.value) := by
  simp [getIntegerAll, getLiteralAllOfType, List.map_map, reduceOption_map_eq_filterMap]
  rfl

theorem bind_findOne_none_of_filterMap_nil (m : Quad → Bool) (f : Quad → Option α)
    (thing : Thing) (hnil : (findAll thing m).filterMap f = []) :
    (findOne thing m).bind f = none := by
  rw [findOne_eq_head]
  cases h : findAll thing m with
  | nil => simp
  | cons q rest =>
    rw [h] at hnil
    have hq : f q = none := List.filterMap_eq_nil_iff.mp hnil q (by simp)
    simp [hq]

theorem head?_filterMap_of_bind_findOne (m : Quad → Bool) (f : Quad → Option α)
    (thing : Thing) (v : α) (h : (findOne thing m).bind f = some v) :
    ((findAll thing m).filterMap f).head? = some v := by
  rw [findOne_eq_head] at h
  cases hall : findAll thing m with
  | nil => rw [hall] at h; simp at h
  | cons q rest =>
    rw [hall] at h
    simp only [List.head?_cons, Option.some_bind] at h
    simp [List.filterMap_cons, h]

theorem head?_map_of_map_findOne (m : Quad → Bool) (f : Quad → α)
    (thing : Thing) (v : α) (h : (findOne thing m).map f = some v) :
    ((findAll thing m).map f).head? = some v := by
  rw [List.head?_map, ← findOne_eq_head]
  exact h

theorem bind_findOne_of_findAll_cons (m : Quad → Bool) (f : Quad → Option α)
    (thing : Thing) (q : Quad) (rest : List Quad) (h : findAll thing m = q :: rest) :
    (findOne thing m).bind f = f q := by
  rw [findOne_eq_head, h]
  rfl

theorem ok_bind (a : α) (f : α → Except ε β) : (Except.ok a : Except ε α) >>= f = f a := rfl

theorem getNamedNodeMatcherChecked_ok (p : IriArg) (q : Quad) :
    getNamedNodeMatcherChecked p q = .ok (getNamedNodeMatcher p q) := rfl

theorem getLiteralMatcherChecked_ok (p : IriArg) (q : Quad) :
    getLiteralMatcherChecked p q = .ok (getLiteralMatcher p q) := rfl

theorem getLiteralOfTypeMatcherChecked_ok (p : IriArg) (dt : String) (q : Quad) :
    getLiteralOfTypeMatcherChecked p dt q = .ok (getLiteralOfTypeMatcher p dt q) := by
  unfold getLiteralOfTypeMatcherChecked getLiteralOfTypeMatcher
  cases hobj : q.object <;>
    cases hp : (asNamedNode p).equalsB q.predicate <;>
      first
      | rfl
      | simp [isLiteral, Term.datatypeValueChecked, Term.datatypeValue, hp, ok_bind]

theorem getLocaleStringMatcherChecked_ok (p : IriArg) (locale : String) (q : Quad) :
    getLocaleStringMatcherChecked p locale q = .ok (getLocaleStringMatcher p locale q) := by
  unfold getLocaleStringMatcherChecked getLocaleStringMatcher
  cases hobj : q.object <;>
    cases hp : (asNamedNode p).equalsB q.predicate <;>
      first
      | rfl
      | (cases hdt : q.object.datatypeValue == xmlSchemaTypes.langString <;>
          simp_all [isLiteral, Term.datatypeValueChecked, Term.datatypeValue,
            Term.languageValueChecked, Term.languageValue, ok_bind])

theorem findOneChecked_ok (m : Quad → Bool) (mc : Quad → Except String Bool)
    (h : ∀ q, mc q = .ok (m q)) (thing : Thing) :
    findOneChecked thing mc = .ok (findOne thing m) := by
  induction thing with
  | nil => rfl
  | cons q rest ih =>
    simp only [findOneChecked, findOne, h q, ih]
    cases hq : m q <;> simp [hq, ih] <;> rfl

theorem findAllChecked_ok (m : Quad → Bool) (mc : Quad → Except String Bool)
    (h : ∀ q, mc q = .ok (m q)) (thing : Thing) :
    findAllChecked thing mc = .ok (findAll thing m) := by
  induction thing with
  | nil => rfl
  | cons q rest ih =>
    simp only [findAllChecked, findAll, h q, ih]
    cases hq : m q <;> simp [hq, ih] <;> rfl

/-- C1 (counterexample): the claimed equivalence between a not-found result of
`getBooleanOne` and emptiness of `getBooleanAll` fails on a Thing whose first
boolean-typed literal is lexically malformed and whose second is valid: the
single-value accessor returns the not-found sentinel while the multi-value
accessor returns a non-empty list. -/
theorem booleanOne_none_while_booleanAll_nonempty :
    getBooleanOne exampleThingMaybeTrue exampleArg = none ∧
    getBooleanAll exampleThingMaybeTrue exampleArg ≠ [] := by
  decide

/-- C1 (amended): `getXOne` returns the not-found sentinel iff `getXAll` is
empty for the accessor pairs without a deserialization step (IRI, unlocalized
string, locale string); for the deserializing pairs (boolean, datetime,
decimal, integer) only the implication from an empty `getXAll` to a not-found
`getXOne` holds. -/
theorem one_none_iff_all_empty_amended (thing : Thing) (predicate : IriArg)
    (locale : String) :
    (getIriOne thing predicate = none ↔ getIriAll thing predicate = []) ∧
    (getStringUnlocalizedOne thing predicate = none ↔
      getStringUnlocalizedAll thing predicate = []) ∧
    (getStringInLocaleOne thing predicate locale = none ↔
      getStringInLocaleAll thing predicate locale = []) ∧
    (getBooleanAll thing predicate = [] → getBooleanOne thing predicate = none) ∧
    (getDatetimeAll thing predicate = [] → getDatetimeOne thing predicate = none) ∧
    (getDecimalAll thing predicate = [] → getDecimalOne thing predicate = none) ∧
    (getIntegerAll thing predicate = [] → getIntegerOne thing predicate = none) := by
  refine ⟨?_, ?_, ?_, ?_, ?_, ?_, ?_⟩
  · simp only [getIriOne_eq_map, getIriAll, Option.map_eq_none', List.map_eq_nil_iff,
      findOne_none_iff]
  · simp only [getStringUnlocalizedOne, getStringUnlocalizedAll, getLiteralOneOfType_eq_map,
      getLiteralAllOfType, Option.map_eq_none', List.map_eq_nil_iff, findOne_none_iff]
  · simp only [getStringInLocaleOne_eq_map, getStringInLocaleAll, Option.map_eq_none',
      List.map_eq_nil_iff, findOne_none_iff]
  · intro h
    rw [getBooleanAll_eq_filterMap] at h
    rw [getBooleanOne_eq_bind]
    exact bind_findOne_none_of_filterMap_nil _ _ _ h
  · intro h
    rw [getDatetimeAll_eq_filterMap] at h
    rw [getDatetimeOne_eq_bind]
    exact bind_findOne_none_of_filterMap_nil _ _ _ h
  · intro h
    rw [getDecimalAll_eq_filterMap] at h
    rw [getDecimalOne_eq_bind]
    exact bind_findOne_none_of_filterMap_nil _ _ _ h
  · intro h
    rw [getIntegerAll_eq_filterMap] at h
    rw [getIntegerOne_eq_bind]
    exact bind_findOne_none_of_filterMap_nil _ _ _ h

/-- C1 (witness): the amended theorem applied to the empty Thing discharges
each deserializing implication at a concrete input. -/
theorem one_none_iff_all_empty_amended_witness :
    getBooleanOne [] exampleArg = none ∧ getDatetimeOne [] exampleArg = none ∧
    getDecimalOne [] exampleArg = none ∧ getIntegerOne [] exampleArg = none :=
  ⟨(one_none_iff_all_empty_amended [] exampleArg "en").2.2.2.1 rfl,
   (one_none_iff_all_empty_amended [] exampleArg "en").2.2.2.2.1 rfl,
   (one_none_iff_all_empty_amended [] exampleArg "en").2.2.2.2.2.1 rfl,
   (one_none_iff_all_empty_amended [] exampleArg "en").2.2.2.2.2.2 rfl⟩

/-- C2: every datatype-qualified single-value accessor inspects only the first
statement matching on predicate and datatype: its result is the
deserialization of that statement's lexical value, with no fallthrough to
later matching statements. -/
theorem one_inspects_only_first_matching_statement (thing : Thing) (predicate : IriArg) :
    (∀ q rest,
      findAll thing (getLiteralOfTypeMatcher predicate xmlSchemaTypes.boolean) = q :: rest →
      getBooleanOne thing predicate = deserializeBoolean q.object.value) ∧
    (∀ q rest,
      findAll thing (getLiteralOfTypeMatcher predicate xmlSchemaTypes.dateTime) = q :: rest →
      getDatetimeOne thing predicate = deserializeDatetime q.object.value) ∧
    (∀ q rest,
      findAll thing (getLiteralOfTypeMatcher predicate xmlSchemaTypes.decimal) = q :: rest →
      getDecimalOne thing predicate = deserializeDecimal q.object.value) ∧
    (∀ q rest,
      findAll thing (getLiteralOfTypeMatcher predicate xmlSchemaTypes.integer) = q :: rest →
      getIntegerOne thing predicate = deserializeInteger q.object.value) := by
  refine ⟨?_, ?_, ?_, ?_⟩ <;> intro q rest h
  · rw [getBooleanOne_eq_bind]
    exact bind_findOne_of_findAll_cons _ _ _ _ _ h
  · rw [getDatetimeOne_eq_bind]
    exact bind_findOne_of_findAll_cons _ _ _ _ _ h
  · rw [getDecimalOne_eq_bind]
    exact bind_findOne_of_findAll_cons _ _ _ _ _ h
  · rw [getIntegerOne_eq_bind]
    exact bind_findOne_of_findAll_cons _ _ _ _ _ h

/-- C2 (witness): on a Thing whose first boolean-typed match is the malformed
`"maybe"` and whose second is the valid `"true"`, the single-value accessor
returns the not-found sentinel — it does not fall through — even though the
multi-value accessor shows a later valid statement. -/
theorem one_inspects_only_first_matching_statement_witness :
    getBooleanOne exampleThingMaybeTrue exampleArg = none ∧
    getBooleanAll exampleThingMaybeTrue exampleArg = [true] := by
  refine ⟨?_, by decide⟩
  have h := (one_inspects_only_first_matching_statement exampleThingMaybeTrue exampleArg).1
    (exampleQuad (booleanLiteral "maybe")) [exampleQuad (booleanLiteral "true")] (by decide)
  rw [h]
  decide

/-- C3: `getIriAll` returns, in original statement order, the `.value` of the
object of exactly those statements whose predicate equals the canonicalized
target and whose object is an IRI-reference, with no deduplication. -/
theorem iriAll_eq_filter_then_map (thing : Thing) (predicate : IriArg) :
    getIriAll thing predicate =
      (thing.filter (fun quad =>
          (asNamedNode predicate).equalsB quad.predicate && isNamedNode quad.object)).map
        (fun quad => quad.object.value) := by
  simp only [getIriAll, findAll_eq_filter]
  rfl

/-- C4: every deserializing multi-value accessor filter-maps the matched
statements, so entries whose lexical form fails to deserialize are
individually dropped (never failing the call, never substituting a
placeholder) while the surviving entries keep original statement order; a quad
whose lexical form fails to deserialize contributes nothing wherever it is
inserted; in particular a Thing with boolean-typed literals `"true"` and
`"maybe"` yields `[true]`. -/
theorem all_drops_malformed_preserves_order (thing t1 t2 : Thing) (q : Quad)
    (predicate : IriArg) :
    (getBooleanAll thing predicate =
      (findAll thing (getLiteralOfTypeMatcher predicate xmlSchemaTypes.boolean)).filterMap
        (fun quad => deserializeBoolean quad.object.value)) ∧
    (getDatetimeAll thing predicate =
      (findAll thing (getLiteralOfTypeMatcher predicate xmlSchemaTypes.dateTime)).filterMap
        (fun quad => deserializeDatetime quad.object.value)) ∧
    (getDecimalAll thing predicate =
      (findAll thing (getLiteralOfTypeMatcher predicate xmlSchemaTypes.decimal)).filterMap
        (fun quad => deserializeDecimal quad.object.value)) ∧
    (getIntegerAll thing predicate =
      (findAll thing (getLiteralOfTypeMatcher predicate xmlSchemaTypes.integer)).filterMap
        (fun quad => deserializeInteger quad.object.value)) ∧
    (deserializeBoolean q.object.value = none →
      getBooleanAll (t1 ++ q :: t2) predicate = getBooleanAll (t1 ++ t2) predicate) ∧
    (deserializeDatetime q.object.value = none →
      getDatetimeAll (t1 ++ q :: t2) predicate = getDatetimeAll (t1 ++ t2) predicate) ∧
    (deserializeDecimal q.object.value = none →
      getDecimalAll (t1 ++ q :: t2) predicate = getDecimalAll (t1 ++ t2) predicate) ∧
    (deserializeInteger q.object.value = none →
      getIntegerAll (t1 ++ q :: t2) predicate = getIntegerAll (t1 ++ t2) predicate) ∧
    getBooleanAll exampleThingTrueMaybe exampleArg = [true] := by
  refine ⟨getBooleanAll_eq_filterMap _ _, getDatetimeAll_eq_filterMap _ _,
    getDecimalAll_eq_filterMap _ _, getIntegerAll_eq_filterMap _ _, ?_, ?_, ?_, ?_, by decide⟩
  · intro hnone
    rw [getBooleanAll_eq_filterMap, getBooleanAll_eq_filterMap, findAll_append, findAll_append]
    cases hm : getLiteralOfTypeMatcher predicate xmlSchemaTypes.boolean q <;>
      simp [findAll, hm, List.filterMap_append, List.filterMap_cons, hnone]
  · intro hnone
    rw [getDatetimeAll_eq_filterMap, getDatetimeAll_eq_filterMap, findAll_append, findAll_append]
    cases hm : getLiteralOfTypeMatcher predicate xmlSchemaTypes.dateTime q <;>
      simp [findAll, hm, List.filterMap_append, List.filterMap_cons, hnone]
  · intro hnone
    rw [getDecimalAll_eq_filterMap, getDecimalAll_eq_filterMap, findAll_append, findAll_append]
    cases hm : getLiteralOfTypeMatcher predicate xmlSchemaTypes.decimal q <;>
      simp [findAll, hm, List.filterMap_append, List.filterMap_cons, hnone]
  · intro hnone
    rw [getIntegerAll_eq_filterMap, getIntegerAll_eq_filterMap, findAll_append, findAll_append]
    cases hm : getLiteralOfTypeMatcher predicate xmlSchemaTypes.integer q <;>
      simp [findAll, hm, List.filterMap_append, List.filterMap_cons, hnone]

/-- C4 (witness): inserting the malformed boolean literal `"maybe"` after the
valid `"true"` leaves every deserializing multi-value accessor's result
unchanged. -/
theorem all_drops_malformed_preserves_order_witness :
    getBooleanAll ([exampleQuad (booleanLiteral "true")] ++
        exampleQuad (booleanLiteral "maybe") :: []) exampleArg =
      getBooleanAll ([exampleQuad (booleanLiteral "true")] ++ []) exampleArg ∧
    getDatetimeAll ([exampleQuad (booleanLiteral "true")] ++
        exampleQuad (booleanLiteral "maybe") :: []) exampleArg =
      getDatetimeAll ([exampleQuad (booleanLiteral "true")] ++ []) exampleArg ∧
    getDecimalAll ([exampleQuad (booleanLiteral "true")] ++
        exampleQuad (booleanLiteral "maybe") :: []) exampleArg =
      getDecimalAll ([exampleQuad (booleanLiteral "true")] ++ []) exampleArg ∧
    getIntegerAll ([exampleQuad (booleanLiteral "true")] ++
        exampleQuad (booleanLiteral "maybe") :: []) exampleArg =
      getIntegerAll ([exampleQuad (booleanLiteral "true")] ++ []) exampleArg :=
  ⟨(all_drops_malformed_preserves_order [] [exampleQuad (booleanLiteral "true")] []
      (exampleQuad (booleanLiteral "maybe")) exampleArg).2.2.2.2.1 (by decide),
   (all_drops_malformed_preserves_order [] [exampleQuad (booleanLiteral "true")] []
      (exampleQuad (booleanLiteral "maybe")) exampleArg).2.2.2.2.2.1 (by decide),
   (all_drops_malformed_preserves_order [] [exampleQuad (booleanLiteral "true")] []
      (exampleQuad (booleanLiteral "maybe")) exampleArg).2.2.2.2.2.2.1 (by decide),
   (all_drops_malformed_preserves_order [] [exampleQuad (booleanLiteral "true")] []
      (exampleQuad (booleanLiteral "maybe")) exampleArg).2.2.2.2.2.2.2.1 (by decide)⟩

/-- C5: for every scalar accessor pair, a found `getXOne` result equals the
first element of `getXAll`. -/
theorem one_found_is_head_of_all (thing : Thing) (predicate : IriArg) (locale : String) :
    (∀ v, getIriOne thing predicate = some v →
      (getIriAll thing predicate).head? = some v) ∧
    (∀ v, getStringUnlocalizedOne thing predicate = some v →
      (getStringUnlocalizedAll thing predicate).head? = some v) ∧
    (∀ v, getStringInLocaleOne thing predicate locale = some v →
      (getStringInLocaleAll thing predicate locale).head? = some v) ∧
    (∀ v, getBooleanOne thing predicate = some v →
      (getBooleanAll thing predicate).head? = some v) ∧
    (∀ v, getDatetimeOne thing predicate = some v →
      (getDatetimeAll thing predicate).head? = some v) ∧
    (∀ v, getDecimalOne thing predicate = some v →
      (getDecimalAll thing predicate).head? = some v) ∧
    (∀ v, getIntegerOne thing predicate = some v →
      (getIntegerAll thing predicate).head? = some v) := by
  refine ⟨?_, ?_, ?_, ?_, ?_, ?_, ?_⟩ <;> intro v h
  · rw [getIriOne_eq_map] at h
    simp only [getIriAll]
    exact head?_map_of_map_findOne _ _ _ _ h
  · simp only [getStringUnlocalizedOne, getLiteralOneOfType_eq_map] at h
    simp only [getStringUnlocalizedAll, getLiteralAllOfType]
    exact head?_map_of_map_findOne _ _ _ _ h
  · rw [getStringInLocaleOne_eq_map] at h
    simp only [getStringInLocaleAll]
    exact head?_map_of_map_findOne _ _ _ _ h
  · rw [getBooleanOne_eq_bind] at h
    rw [getBooleanAll_eq_filterMap]
    exact head?_filterMap_of_bind_findOne _ _ _ _ h
  · rw [getDatetimeOne_eq_bind] at h
    rw [getDatetimeAll_eq_filterMap]
    exact head?_filterMap_of_bind_findOne _ _ _ _ h
  · rw [getDecimalOne_eq_bind] at h
    rw [getDecimalAll_eq_filterMap]
    exact head?_filterMap_of_bind_findOne _ _ _ _ h
  · rw [getIntegerOne_eq_bind] at h
    rw [getIntegerAll_eq_filterMap]
    exact head?_filterMap_of_bind_findOne _ _ _ _ h

/-- C5 (witness): each conjunct of the head-agreement theorem applied at a
concrete Thing on which the single-value accessor finds a value. -/
theorem one_found_is_head_of_all_witness :
    (getIriAll exampleIriThing exampleArg).head? = some "https://example.com/object" ∧
    (getStringUnlocalizedAll exampleStringThing exampleArg).head? = some "plain" ∧
    (getStringInLocaleAll exampleLocaleThing exampleArg "en").head? = some "Hallo" ∧
    (getBooleanAll exampleThingTrueMaybe exampleArg).head? = some true ∧
    (getDatetimeAll exampleDatetimeThing exampleArg).head? =
      some ⟨2020, 1, 1, 0, 0, 0, none⟩ ∧
    (getDecimalAll exampleDecimalThing exampleArg).head? = some ⟨35, 1⟩ ∧
    (getIntegerAll exampleIntegerThing exampleArg).head? = some 3 :=
  ⟨(one_found_is_head_of_all exampleIriThing exampleArg "en").1 _ (by decide),
   (one_found_is_head_of_all exampleStringThing exampleArg "en").2.1 _ (by decide),
   (one_found_is_head_of_all exampleLocaleThing exampleArg "en").2.2.1 _ (by decide),
   (one_found_is_head_of_all exampleThingTrueMaybe exampleArg "en").2.2.2.1 _ (by decide),
   (one_found_is_head_of_all exampleDatetimeThing exampleArg "en").2.2.2.2.1 _ (by decide),
   (one_found_is_head_of_all exampleDecimalThing exampleArg "en").2.2.2.2.2.1 _ (by decide),
   (one_found_is_head_of_all exampleIntegerThing exampleArg "en").2.2.2.2.2.2 _ (by decide)⟩

/-- C6: locale matching is case-insensitive and nothing more: locale arguments
that agree after lower-casing give identical results for both localized string
accessors. -/
theorem locale_matching_case_insensitive (thing : Thing) (predicate : IriArg)
    (l1 l2 : String) (h : toLowerCase l1 = toLowerCase l2) :
    getStringInLocaleOne thing predicate l1 = getStringInLocaleOne thing predicate l2 ∧
    getStringInLocaleAll thing predicate l1 = getStringInLocaleAll thing predicate l2 := by
  have hm : getLocaleStringMatcher predicate l1 = getLocaleStringMatcher predicate l2 := by
    funext quad
    simp only [getLocaleStringMatcher, h]
  exact ⟨by simp only [getStringInLocaleOne, hm], by simp only [getStringInLocaleAll, hm]⟩

/-- C6 (witness): a literal tagged `EN` is matched by the locale argument
`en` and by `EN` identically, and is in fact found. -/
theorem locale_matching_case_insensitive_witness :
    toLowerCase "en" = toLowerCase "EN" ∧
    getStringInLocaleOne exampleLocaleThing exampleArg "en" =
      getStringInLocaleOne exampleLocaleThing exampleArg "EN" ∧
    getStringInLocaleOne exampleLocaleThing exampleArg "en" = some "Hallo" :=
  ⟨by decide,
   (locale_matching_case_insensitive exampleLocaleThing exampleArg "en" "EN" (by decide)).1,
   by decide⟩

/-- C7: datatype matching is exact string equality with no subtype widening: a
decimal-typed statement is invisible to the integer accessors wherever it is
inserted, and an integer-typed statement is invisible to the decimal
accessors. -/
theorem exact_datatype_no_widening (t1 t2 : Thing) (q : Quad) (predicate : IriArg) :
    (q.object.datatypeValue = xmlSchemaTypes.decimal →
      getIntegerOne (t1 ++ q :: t2) predicate = getIntegerOne (t1 ++ t2) predicate ∧
      getIntegerAll (t1 ++ q :: t2) predicate = getIntegerAll (t1 ++ t2) predicate) ∧
    (q.object.datatypeValue = xmlSchemaTypes.integer →
      getDecimalOne (t1 ++ q :: t2) predicate = getDecimalOne (t1 ++ t2) predicate ∧
      getDecimalAll (t1 ++ q :: t2) predicate = getDecimalAll (t1 ++ t2) predicate) := by
  constructor
  · intro hdt
    have hne : (xmlSchemaTypes.decimal == xmlSchemaTypes.integer) = false := by decide
    have hm : getLiteralOfTypeMatcher predicate xmlSchemaTypes.integer q = false := by
      simp [getLiteralOfTypeMatcher, hdt, hne]
    constructor
    · rw [getIntegerOne_eq_bind, getIntegerOne_eq_bind, findOne_insert_nonmatching _ _ hm]
    · rw [getIntegerAll_eq_filterMap, getIntegerAll_eq_filterMap,
        findAll_insert_nonmatching _ _ hm]
  · intro hdt
    have hne : (xmlSchemaTypes.integer == xmlSchemaTypes.decimal) = false := by decide
    have hm : getLiteralOfTypeMatcher predicate xmlSchemaTypes.decimal q = false := by
      simp [getLiteralOfTypeMatcher, hdt, hne]
    constructor
    · rw [getDecimalOne_eq_bind, getDecimalOne_eq_bind, findOne_insert_nonmatching _ _ hm]
    · rw [getDecimalAll_eq_filterMap, getDecimalAll_eq_filterMap,
        findAll_insert_nonmatching _ _ hm]

/-- C7 (witness): a decimal-typed literal `3` does not appear in the integer
accessors' view and vice versa; the integer accessor sees exactly the
integer-typed statement. -/
theorem exact_datatype_no_widening_witness :
    getIntegerOne ([] ++ exampleDecimalThreeQuad :: [exampleIntegerThreeQuad]) exampleArg =
      getIntegerOne ([] ++ [exampleIntegerThreeQuad]) exampleArg ∧
    getIntegerAll ([] ++ exampleDecimalThreeQuad :: [exampleIntegerThreeQuad]) exampleArg =
      getIntegerAll ([] ++ [exampleIntegerThreeQuad]) exampleArg ∧
    getDecimalOne ([] ++ exampleIntegerThreeQuad :: [exampleDecimalThreeQuad]) exampleArg =
      getDecimalOne ([] ++ [exampleDecimalThreeQuad]) exampleArg ∧
    getDecimalAll ([] ++ exampleIntegerThreeQuad :: [exampleDecimalThreeQuad]) exampleArg =
      getDecimalAll ([] ++ [exampleDecimalThreeQuad]) exampleArg ∧
    getIntegerAll [exampleDecimalThreeQuad, exampleIntegerThreeQuad] exampleArg = [3] :=
  ⟨((exact_datatype_no_widening [] [exampleIntegerThreeQuad] exampleDecimalThreeQuad
      exampleArg).1 (by decide)).1,
   ((exact_datatype_no_widening [] [exampleIntegerThreeQuad] exampleDecimalThreeQuad
      exampleArg).1 (by decide)).2,
   ((exact_datatype_no_widening [] [exampleDecimalThreeQuad] exampleIntegerThreeQuad
      exampleArg).2 (by decide)).1,
   ((exact_datatype_no_widening [] [exampleDecimalThreeQuad] exampleIntegerThreeQuad
      exampleArg).2 (by decide)).2,
   by decide⟩

/-- C8: a predicate given as a raw IRI string and as an IRI node carrying the
same string are interchangeable in every public accessor, and predicate
canonicalization is idempotent. -/
theorem predicate_string_and_node_interchangeable (thing : Thing) (s : String)
    (locale : String) (x : IriArg) :
    getIriOne thing (.iri ⟨s⟩) = getIriOne thing (.iriString s) ∧
    getIriAll thing (.iri ⟨s⟩) = getIriAll thing (.iriString s) ∧
    getBooleanOne thing (.iri ⟨s⟩) = getBooleanOne thing (.iriString s) ∧
    getBooleanAll thing (.iri ⟨s⟩) = getBooleanAll thing (.iriString s) ∧
    getDatetimeOne thing (.iri ⟨s⟩) = getDatetimeOne thing (.iriString s) ∧
    getDatetimeAll thing (.iri ⟨s⟩) = getDatetimeAll thing (.iriString s) ∧
    getDecimalOne thing (.iri ⟨s⟩) = getDecimalOne thing (.iriString s) ∧
    getDecimalAll thing (.iri ⟨s⟩) = getDecimalAll thing (.iriString s) ∧
    getIntegerOne thing (.iri ⟨s⟩) = getIntegerOne thing (.iriString s) ∧
    getIntegerAll thing (.iri ⟨s⟩) = getIntegerAll thing (.iriString s) ∧
    getStringInLocaleOne thing (.iri ⟨s⟩) locale =
      getStringInLocaleOne thing (.iriString s) locale ∧
    getStringInLocaleAll thing (.iri ⟨s⟩) locale =
      getStringInLocaleAll thing (.iriString s) locale ∧
    getStringUnlocalizedOne thing (.iri ⟨s⟩) = getStringUnlocalizedOne thing (.iriString s) ∧
    getStringUnlocalizedAll thing (.iri ⟨s⟩) = getStringUnlocalizedAll thing (.iriString s) ∧
    getNamedNodeOne thing (.iri ⟨s⟩) = getNamedNodeOne thing (.iriString s) ∧
    getNamedNodeAll thing (.iri ⟨s⟩) = getNamedNodeAll thing (.iriString s) ∧
    getLiteralOne thing (.iri ⟨s⟩) = getLiteralOne thing (.iriString s) ∧
    getLiteralAll thing (.iri ⟨s⟩) = getLiteralAll thing (.iriString s) ∧
    asNamedNode (.iri (asNamedNode x)) = asNamedNode x :=
  ⟨rfl, rfl, rfl, rfl, rfl, rfl, rfl, rfl, rfl, rfl, rfl, rfl, rfl, rfl, rfl, rfl, rfl, rfl,
   rfl⟩

theorem getLiteralOneOfTypeChecked_ok (thing : Thing) (p : IriArg) (dt : String) :
    getLiteralOneOfTypeChecked thing p dt = .ok (getLiteralOneOfType thing p dt) := by
  simp only [getLiteralOneOfTypeChecked,
    findOneChecked_ok (getLiteralOfTypeMatcher p dt) _ (getLiteralOfTypeMatcherChecked_ok p dt)
      thing,
    ok_bind, getLiteralOneOfType_eq_map]

theorem getLiteralAllOfTypeChecked_ok (thing : Thing) (p : IriArg) (dt : String) :
    getLiteralAllOfTypeChecked thing p dt = .ok (getLiteralAllOfType thing p dt) := by
  simp only [getLiteralAllOfTypeChecked,
    findAllChecked_ok (getLiteralOfTypeMatcher p dt) _ (getLiteralOfTypeMatcherChecked_ok p dt)
      thing,
    ok_bind, getLiteralAllOfType]

/-- C9: totality of the public accessor API: under the checked semantics, in
which the guarded field accesses of the matchers throw on a term lacking the
field, every accessor evaluates without throwing to exactly its pure result —
absence, datatype mismatch and malformed lexical content are all folded into
the not-found or omitted outcome. -/
theorem accessors_total_never_throw (thing : Thing) (predicate : IriArg) (locale : String) :
    getIriOneChecked thing predicate = .ok (getIriOne thing predicate) ∧
    getIriAllChecked thing predicate = .ok (getIriAll thing predicate) ∧
    getBooleanOneChecked thing predicate = .ok (getBooleanOne thing predicate) ∧
    getBooleanAllChecked thing predicate = .ok (getBooleanAll thing predicate) ∧
    getDatetimeOneChecked thing predicate = .ok (getDatetimeOne thing predicate) ∧
    getDatetimeAllChecked thing predicate = .ok (getDatetimeAll thing predicate) ∧
    getDecimalOneChecked thing predicate = .ok (getDecimalOne thing predicate) ∧
    getDecimalAllChecked thing predicate = .ok (getDecimalAll thing predicate) ∧
    getIntegerOneChecked thing predicate = .ok (getIntegerOne thing predicate) ∧
    getIntegerAllChecked thing predicate = .ok (getIntegerAll thing predicate) ∧
    getStringInLocaleOneChecked thing predicate locale =
      .ok (getStringInLocaleOne thing predicate locale) ∧
    getStringInLocaleAllChecked thing predicate locale =
      .ok (getStringInLocaleAll thing predicate locale) ∧
    getStringUnlocalizedOneChecked thing predicate =
      .ok (getStringUnlocalizedOne thing predicate) ∧
    getStringUnlocalizedAllChecked thing predicate =
      .ok (getStringUnlocalizedAll thing predicate) ∧
    getNamedNodeOneChecked thing predicate = .ok (getNamedNodeOne thing predicate) ∧
    getNamedNodeAllChecked thing predicate = .ok (getNamedNodeAll thing predicate) ∧
    getLiteralOneChecked thing predicate = .ok (getLiteralOne thing predicate) ∧
    getLiteralAllChecked thing predicate = .ok (getLiteralAll thing predicate) := by
  refine ⟨?_, ?_, ?_, ?_, ?_, ?_, ?_, ?_, ?_, ?_, ?_, ?_, ?_, ?_, ?_, ?_, ?_, ?_⟩
  · simp only [getIriOneChecked,
      findOneChecked_ok (getNamedNodeMatcher predicate) _
        (getNamedNodeMatcherChecked_ok predicate) thing,
      ok_bind, getIriOne_eq_map]
  · simp only [getIriAllChecked,
      findAllChecked_ok (getNamedNodeMatcher predicate) _
        (getNamedNodeMatcherChecked_ok predicate) thing,
      ok_bind, getIriAll]
  · simp only [getBooleanOneChecked, getLiteralOneOfTypeChecked_ok, ok_bind, getBooleanOne]
  · simp only [getBooleanAllChecked, getLiteralAllOfTypeChecked_ok, ok_bind, getBooleanAll]
  · simp only [getDatetimeOneChecked, getLiteralOneOfTypeChecked_ok, ok_bind, getDatetimeOne]
  · simp only [getDatetimeAllChecked, getLiteralAllOfTypeChecked_ok, ok_bind, getDatetimeAll]
  · simp only [getDecimalOneChecked, getLiteralOneOfTypeChecked_ok, ok_bind, getDecimalOne]
  · simp only [getDecimalAllChecked, getLiteralAllOfTypeChecked_ok, ok_bind, getDecimalAll]
  · simp only [getIntegerOneChecked, getLiteralOneOfTypeChecked_ok, ok_bind, getIntegerOne]
  · simp only [getIntegerAllChecked, getLiteralAllOfTypeChecked_ok, ok_bind, getIntegerAll]
  · simp only [getStringInLocaleOneChecked,
      findOneChecked_ok (getLocaleStringMatcher predicate locale) _
        (getLocaleStringMatcherChecked_ok predicate locale) thing,
      ok_bind, getStringInLocaleOne_eq_map]
  · simp only [getStringInLocaleAllChecked,
      findAllChecked_ok (getLocaleStringMatcher predicate locale) _
        (getLocaleStringMatcherChecked_ok predicate locale) thing,
      ok_bind, getStringInLocaleAll]
  · simp only [getStringUnlocalizedOneChecked, getLiteralOneOfTypeChecked_ok,
      getStringUnlocalizedOne]
  · simp only [getStringUnlocalizedAllChecked, getLiteralAllOfTypeChecked_ok,
      getStringUnlocalizedAll]
  · simp only [getNamedNodeOneChecked,
      findOneChecked_ok (getNamedNodeMatcher predicate) _
        (getNamedNodeMatcherChecked_ok predicate) thing,
      ok_bind, getNamedNodeOne_eq_map]
  · simp only [getNamedNodeAllChecked,
      findAllChecked_ok (getNamedNodeMatcher predicate) _
        (getNamedNodeMatcherChecked_ok predicate) thing,
      ok_bind, getNamedNodeAll]
  · simp only [getLiteralOneChecked,
      findOneChecked_ok (getLiteralMatcher predicate) _
        (getLiteralMatcherChecked_ok predicate) thing,
      ok_bind, getLiteralOne_eq_map]
  · simp only [getLiteralAllChecked,
      findAllChecked_ok (getLiteralMatcher predicate) _
        (getLiteralMatcherChecked_ok predicate) thing,
      ok_bind, getLiteralAll]

/-- C10: the unlocalized and localized string accessors partition string
literals disjointly: a language-tagged-string literal is invisible to the
unlocalized accessors wherever it is inserted, and an `xsd:string` literal is
invisible to the locale accessors for every locale. -/
theorem string_accessor_families_disjoint (t1 t2 : Thing) (q : Quad)
    (predicate : IriArg) (locale : String) :
    (q.object.datatypeValue = xmlSchemaTypes.langString →
      getStringUnlocalizedOne (t1 ++ q :: t2) predicate =
        getStringUnlocalizedOne (t1 ++ t2) predicate ∧
      getStringUnlocalizedAll (t1 ++ q :: t2) predicate =
        getStringUnlocalizedAll (t1 ++ t2) predicate) ∧
    (q.object.datatypeValue = xmlSchemaTypes.string →
      getStringInLocaleOne (t1 ++ q :: t2) predicate locale =
        getStringInLocaleOne (t1 ++ t2) predicate locale ∧
      getStringInLocaleAll (t1 ++ q :: t2) predicate locale =
        getStringInLocaleAll (t1 ++ t2) predicate locale) := by
  constructor
  · intro hdt
    have hne : (xmlSchemaTypes.langString == xmlSchemaTypes.string) = false := by decide
    have hm : getLiteralOfTypeMatcher predicate xmlSchemaTypes.string q = false := by
      simp [getLiteralOfTypeMatcher, hdt, hne]
    constructor
    · simp only [getStringUnlocalizedOne, getLiteralOneOfType_eq_map,
        findOne_insert_nonmatching _ _ hm]
    · simp only [getStringUnlocalizedAll, getLiteralAllOfType,
        findAll_insert_nonmatching _ _ hm]
  · intro hdt
    have hne : (xmlSchemaTypes.string == xmlSchemaTypes.langString) = false := by decide
    have hm : getLocaleStringMatcher predicate locale q = false := by
      simp [getLocaleStringMatcher, hdt, hne]
    constructor
    · simp only [getStringInLocaleOne_eq_map, findOne_insert_nonmatching _ _ hm]
    · simp only [getStringInLocaleAll, findAll_insert_nonmatching _ _ hm]

/-- C10 (witness): inserting a language-tagged literal leaves the unlocalized
accessors unchanged, and inserting an `xsd:string` literal leaves the locale
accessors unchanged, at concrete Things on which each family finds its own
literal. -/
theorem string_accessor_families_disjoint_witness :
    getStringUnlocalizedOne ([] ++ exampleLangStringQuad :: [exampleXsdStringQuad])
        exampleArg =
      getStringUnlocalizedOne ([] ++ [exampleXsdStringQuad]) exampleArg ∧
    getStringUnlocalizedAll ([] ++ exampleLangStringQuad :: [exampleXsdStringQuad])
        exampleArg =
      getStringUnlocalizedAll ([] ++ [exampleXsdStringQuad]) exampleArg ∧
    getStringInLocaleOne ([] ++ exampleXsdStringQuad :: [exampleLangStringQuad])
        exampleArg "en" =
      getStringInLocaleOne ([] ++ [exampleLangStringQuad]) exampleArg "en" ∧
    getStringInLocaleAll ([] ++ exampleXsdStringQuad :: [exampleLangStringQuad])
        exampleArg "en" =
      getStringInLocaleAll ([] ++ [exampleLangStringQuad]) exampleArg "en" ∧
    getStringUnlocalizedOne [exampleLangStringQuad, exampleXsdStringQuad] exampleArg =
      some "plain" ∧
    getStringInLocaleOne [exampleXsdStringQuad, exampleLangStringQuad] exampleArg "en" =
      some "Hallo" :=
  ⟨((string_accessor_families_disjoint [] [exampleXsdStringQuad] exampleLangStringQuad
      exampleArg "en").1 (by decide)).1,
   ((string_accessor_families_disjoint [] [exampleXsdStringQuad] exampleLangStringQuad
      exampleArg "en").1 (by decide)).2,
   ((string_accessor_families_disjoint [] [exampleLangStringQuad] exampleXsdStringQuad
      exampleArg "en").2 (by decide)).1,
   ((string_accessor_families_disjoint [] [exampleLangStringQuad] exampleXsdStringQuad
      exampleArg "en").2 (by decide)).2,
   by decide, by decide⟩

end SolidGet
